import Mathlib

/-!
Verification development for the NovaPlan roadmap-generation pipeline
(`roadmap_gen_alpha_v0.4`).  The Python sources are shallowly embedded:

* `generator.py` — skill resolution (`normalize_skills`), career matching
  (the scoring loop inside `generate_roadmaps_for_user`), quiz heuristics,
  and the top-level request handler;
* `generator_core.py` — roadmap synthesis (`generate_steps_for_career`,
  `generate_distinct_roadmaps`).

External collaborators are passed as explicit parameters:
* the semantic index query (`query_skill`) is a function
  `String → Option (String × ℚ)` — `none` models the query raising
  (missing index, empty result, ...);
* the `rapidfuzz` scorer (`fuzz.token_sort_ratio`) is an abstract
  similarity function `String → String → ℚ`;
* Python's global `random` generator is modelled by an explicit draw
  counter: the sampler receives the index of the draw, the population and
  the sample size, mirroring that each `random.sample` call consumes
  generator state;
* plotting and JSON persistence are fallible collaborators returning
  `Except`.

Machine floats of the Python runtime are modelled by exact rationals: all
constants involved (0.2, 0.6, 0.8) and all scores are small exact
fractions, so no claim depends on rounding behaviour.
-/

namespace NovaPlan

/-- Python `s.lower()` (ASCII-level model, applied character-wise). -/
def strLower (s : String) : String := ⟨s.toList.map Char.toLower⟩

/-- Python `s.upper()` (ASCII-level model, applied character-wise). -/
def strUpper (s : String) : String := ⟨s.toList.map Char.toUpper⟩

/-- Python `s.strip()`: drop leading and trailing whitespace. -/
def strTrim (s : String) : String :=
  ⟨((s.toList.dropWhile Char.isWhitespace).reverse.dropWhile
      Char.isWhitespace).reverse⟩

/-- Python `needle in hay` (substring containment) over strings. -/
def strContainsSub (hay needle : String) : Bool :=
  (List.range (hay.toList.length + 1)).any
    (fun i => needle.toList.isPrefixOf (hay.toList.drop i))

/-- Python `str.title()`: the first letter of every alphabetic run is
upper-cased, the rest lower-cased (ASCII-level model of `.title()`). -/
def titleChars : List Char → Bool → List Char
  | [], _ => []
  | c :: cs, prevAlpha =>
    (if c.isAlpha then (if prevAlpha then c.toLower else c.toUpper) else c)
      :: titleChars cs c.isAlpha

/-- Python `s.title()` on a string. -/
def strTitle (s : String) : String := ⟨titleChars s.toList false⟩

/-- One step of the stable descending insertion sort: insert `x` before the
first element whose score it meets or exceeds (so that, among equal
scores, earlier list elements stay first — the behaviour of Python's
stable `list.sort(key=..., reverse=True)`). -/
def insertDesc {α : Type} (x : α × ℚ) : List (α × ℚ) → List (α × ℚ)
  | [] => [x]
  | y :: ys => if x.2 ≥ y.2 then x :: y :: ys else y :: insertDesc x ys

/-- Stable descending sort by score, modelling Python's
`list.sort(key=lambda p: p[1], reverse=True)` (any stable sort is
extensionally unique, so insertion sort is a faithful model). -/
def sortDesc {α : Type} : List (α × ℚ) → List (α × ℚ)
  | [] => []
  | x :: xs => insertDesc x (sortDesc xs)

/-- First element of maximal score: the element with the strictly highest
score, ties resolved in favour of the earliest list position.  This is the
specification-side description of both `list.sort(reverse=True)[0]` and
`rapidfuzz.process.extractOne` tie behaviour. -/
def firstMax {α : Type} : List (α × ℚ) → Option (α × ℚ)
  | [] => none
  | x :: xs =>
    match firstMax xs with
    | none => some x
    | some m => if m.2 > x.2 then some m else some x

/-- An occupation record of `careers.json` / the fallback `CAREER_DATASET`:
a dict with keys `career`, `skills`, `education`, `description` and
(after enrichment) `tasks`. -/
structure Career where
  career : String
  skills : List String
  education : List String
  description : String
  tasks : List String
  deriving DecidableEq

/-! ### Skill Resolver (`generator.py`, `normalize_skills`) -/

/-- Model of `rapidfuzz.process.extractOne(s, choices, scorer=...)`: the
highest-scoring choice, earliest choice winning ties (rapidfuzz keeps a
candidate only when it scores strictly higher than the incumbent);
`none` iff `choices` is empty (`token_sort_ratio` is never below the
default score cutoff 0). -/
def extractOneBy (scorer : String → String → ℚ) (s : String)
    (choices : List String) : Option String :=
  (firstMax (choices.map (fun v => (v, scorer s v)))).map Prod.fst

/-- The fuzzy branch of `normalize_skills`:
`best = process.extractOne(s, SKILL_VOCAB, scorer=fuzz.token_sort_ratio)`
then `best[0] if best else s.lower()`. -/
def fuzzyFallback (scorer : String → String → ℚ) (vocab : List String)
    (s : String) : String :=
  match extractOneBy scorer s vocab with
  | some best => best
  | none => strLower s

/-- The per-skill body of the `normalize_skills` loop: strip, try the
semantic query (`query_skill(s, k=1)`, any exception caught), accept the
neighbour when its similarity is strictly above 0.6, otherwise fall back
to fuzzy matching. -/
def resolveOne (query : String → Option (String × ℚ))
    (vocab : List String) (scorer : String → String → ℚ)
    (raw : String) : String :=
  let s := strTrim raw
  match query s with
  | some nd => if nd.2 > (0.6 : ℚ) then nd.1 else fuzzyFallback scorer vocab s
  | none => fuzzyFallback scorer vocab s

/-- The dedupe loop at the end of `normalize_skills`:
`seen = []; for x in normalized: if x not in seen: seen.append(x)`. -/
def dedupeAux (seen : List String) : List String → List String
  | [] => seen
  | x :: xs => if x ∈ seen then dedupeAux seen xs else dedupeAux (seen ++ [x]) xs

/-- Translation of `normalize_skills(raw_skills)` from `generator.py`, with the semantic
query and the fuzzy scorer as explicit collaborators. -/
def normalize_skills (query : String → Option (String × ℚ))
    (vocab : List String) (scorer : String → String → ℚ)
    (raw_skills : List String) : List String :=
  dedupeAux [] (raw_skills.map (resolveOne query vocab scorer))

/-- Specification-side dedup: keep the first occurrence of every token,
drop all later duplicates. -/
def firstOccurrenceDedup : List String → List String
  | [] => []
  | x :: xs => x :: firstOccurrenceDedup (xs.filter (fun y => y ≠ x))
termination_by l => l.length
decreasing_by
  simp only [List.length_cons]
  exact Nat.lt_succ_of_le (List.length_filter_le _ _)

/-! ### Career Matcher (scoring loop of `generate_roadmaps_for_user`) -/

/-- The per-occupation score of the matcher loop:
`cskills = [s.lower() for s in c.get('skills', [])]`,
`overlap = len(set(skills) & set(cskills))`,
`kw_bonus = 0.2 if any(k in (summary or '').lower() for k in cskills[:5]) else 0`,
`score = overlap / max(1, len(cskills) or 1) + kw_bonus`. -/
def scoreOcc (skills : List String) (summary : String) (c : Career) : ℚ :=
  let cskills := c.skills.map strLower
  let overlap : ℕ := (skills.toFinset ∩ cskills.toFinset).card
  let kw_bonus : ℚ :=
    if (cskills.take 5).any (fun k => strContainsSub (strLower summary) k)
    then 0.2 else 0
  (overlap : ℚ) / ((max 1 cskills.length : ℕ) : ℚ) + kw_bonus

/-- The selection tail of the matcher:
`scored.sort(key=lambda x: x[1], reverse=True)` then
`top = scored[0][0] if scored else CAREER_DATASET[0]`.
Indexing the empty dataset raises `IndexError`; the raise is modelled by
`none`. -/
def selectTop (corpus : List Career) (skills : List String)
    (summary : String) : Option Career :=
  let scored := corpus.map (fun c => (c, scoreOcc skills summary c))
  let ranked := sortDesc scored
  match ranked.head? with
  | some top => some top.1
  | none => corpus.head?

/-- Specification-side selection: the occupation with the strictly highest
score, ties resolved by corpus iteration order (first encountered wins). -/
def selectBestSpec (corpus : List Career) (skills : List String)
    (summary : String) : Option Career :=
  (firstMax (corpus.map (fun c => (c, scoreOcc skills summary c)))).map Prod.fst

/-! ### Roadmap Synthesizer (`generator_core.py`) -/

/-- The `RoadmapStep` dataclass of `generator_core.py`. -/
structure RoadmapStep where
  title : String
  objective : String
  duration_months : Nat
  prerequisites : List String
  milestones : List String
  resources : List String
  tasks : List String
  children : List RoadmapStep

/-- The `Roadmap` dataclass of `generator_core.py`. -/
structure Roadmap where
  path_title : String
  focus : String
  confidence_score : ℚ
  steps : List RoadmapStep

/-- The local `make_step` constructor of `generate_steps_for_career`. -/
def make_step (title objective : String) (months : Nat)
    (prereq milestones resources tasks : List String)
    (children : List RoadmapStep) : RoadmapStep :=
  ⟨title, objective, months, prereq, milestones, resources, tasks, children⟩

/-- The value of the `get_tasks(count, fallback_prefix)` helper: a random
sample of the occupation task list when it is non-empty, otherwise `count`
synthetic placeholder names.  `idx` is the index of this draw from the
global random generator. -/
def getTasksOut (sampler : Nat → List String → Nat → List String)
    (careerTasks : List String) (idx count : Nat) (pfx : String) :
    List String :=
  match careerTasks with
  | [] => (List.range count).map (fun i => pfx ++ " " ++ toString (i + 1))
  | _ :: _ => sampler idx careerTasks (min careerTasks.length count)

/-- Advance of the draw counter caused by one `get_tasks` call: a draw is
consumed exactly when `career_tasks` is non-empty (the placeholder branch
never touches `random`). -/
def getTasksNext (careerTasks : List String) (idx : Nat) : Nat :=
  match careerTasks with
  | [] => idx
  | _ :: _ => idx + 1

/-- Translation of `known = [s for s in [sk.lower() for sk in career.get('skills',[])] if s in profile_skills]`. -/
def knownSkills (career : Career) (profile_skills : List String) : List String :=
  (career.skills.map strLower).filter (fun s => s ∈ profile_skills)

/-- Translation of `missing = [s for s in [sk.lower() for sk in career.get('skills',[])] if s not in profile_skills]`. -/
def missingSkills (career : Career) (profile_skills : List String) : List String :=
  (career.skills.map strLower).filter (fun s => s ∉ profile_skills)

/-- Translation of `skills_to_learn = (missing[:4] if missing else career.get('skills', [])[:4])`
(note: the `else` branch takes the raw, un-lowered skill list). -/
def skillsToLearn (career : Career) (profile_skills : List String) : List String :=
  match missingSkills career profile_skills with
  | [] => career.skills.take 4
  | m :: ms => (m :: ms).take 4

/-- The five top-level phases before focus tailoring. -/
structure Phases where
  foundations : RoadmapStep
  core : RoadmapStep
  project : RoadmapStep
  specialization : RoadmapStep
  job : RoadmapStep

/-- The body of `generate_steps_for_career` up to (and excluding) the
focus tailoring: builds the five phases, threading the random draw
counter through the four `get_tasks` call sites (foundations sub-step,
project 1, project 2, specialization).  Returns the phases and the draw
counter after the call. -/
def buildPhases (sampler : Nat → List String → Nat → List String)
    (career : Career) (profile_skills : List String) (beginner : Bool)
    (rng : Nat) : Phases × Nat :=
  let known := knownSkills career profile_skills
  let missing := missingSkills career profile_skills
  let career_tasks := career.tasks
  let career_name := career.career
  -- 1. Foundations
  let foundations_children : List RoadmapStep :=
    if beginner then
      [ make_step "Industry Fundamentals"
          ("Understand the core concepts of " ++ career_name) 1 []
          ["Complete introductory course", "Learn industry terminology",
           "Understand role responsibilities"]
          ["Online Courses", "Industry Glossaries", "Career Guides"]
          (getTasksOut sampler career_tasks rng 5 "Study fundamental concept") [],
        make_step "Tools & Environment" "Set up your professional workspace" 1 []
          ["Install necessary software", "Configure development/work environment",
           "Join professional communities"]
          ["Official Documentation", "Community Forums"]
          ["Research standard tools for " ++ career_name,
           "Install primary software tools",
           "Create account on professional networks"] [] ]
    else []
  let rng1 := if beginner then getTasksNext career_tasks rng else rng
  let foundations := make_step "Foundations"
      "Build essential groundwork for your career" (if beginner then 1 else 0) []
      ["Complete foundation modules", "Set up workspace"]
      ["Standard Industry Tools"]
      ["Set up your learning workspace", "Create a study schedule",
       "Join relevant online communities"] foundations_children
  -- 2. Core Skills
  let skills_to_learn := skillsToLearn career profile_skills
  let core_children := skills_to_learn.enum.map (fun p =>
    let i := p.1
    let sk := p.2
    let related_tasks := career_tasks.filter
      (fun t => strContainsSub (strLower t) (strLower sk))
    let step_tasks :=
      match related_tasks with
      | [] => ["Practice " ++ sk ++ " fundamentals",
               "Apply " ++ sk ++ " in small scenarios"]
      | r :: rs => (r :: rs).take 3
    make_step (strTitle sk ++ " Proficiency")
      ("Develop proficiency in " ++ sk) 2
      (if i = 0 then known.take 2 else [])
      ["Complete " ++ sk ++ " course", "Demonstrate " ++ sk ++ " usage",
       "Pass " ++ sk ++ " quiz"]
      [strTitle sk ++ " Resources"] step_tasks [])
  let core := make_step "Core Skills Development"
      ("Master essential skills for " ++ career_name)
      (max 2 core_children.length) known
      ["Complete all core skill modules", "Pass skill assessments"]
      ["Online Learning Platforms"]
      ["Create a skills tracking spreadsheet", "Set up practice projects",
       "Find a mentor"] core_children
  -- 3. Practical Application
  let proj1_tasks := getTasksOut sampler career_tasks rng1 4 "Implement basic feature"
  let rng2 := getTasksNext career_tasks rng1
  let proj2_tasks := getTasksOut sampler career_tasks rng2 5 "Implement advanced feature"
  let rng3 := getTasksNext career_tasks rng2
  let project_children :=
    [ make_step "Applied Practice Project"
        "Apply core skills in a realistic scenario" 2 (known ++ missing.take 2)
        ["Design project scope", "Implement core features", "Document results"]
        ["Project Management Tools", "Documentation Tools"]
        (["Select a real-world problem to solve", "Plan the solution"] ++ proj1_tasks) [],
      make_step "Advanced Capstone" "Demonstrate comprehensive mastery" 2
        (known ++ missing.take 3)
        ["Complete complex project", "Peer review", "Final presentation"]
        ["Advanced Tools"]
        (["Define advanced project requirements"] ++ proj2_tasks) [] ]
  let project := make_step "Practical Application"
      "Gain hands-on experience through projects or simulations"
      project_children.length known
      ["Complete 2 major projects", "Build portfolio"]
      ["Portfolio Platform"]
      ["Research industry standard projects", "Document process and outcomes"]
      project_children
  -- 4. Specialization
  let spec_tasks := getTasksOut sampler career_tasks rng3 4 "Study advanced topic"
  let rng4 := getTasksNext career_tasks rng3
  let spec_children :=
    [ make_step "Specialization Track" "Deep dive into a specific area" 2
        (known ++ missing.take 2)
        ["Complete specialization course", "Advanced certification",
         "Master advanced concepts"]
        ["Specialized Training"] spec_tasks [] ]
  let specialization := make_step "Specialization"
      "Develop expertise in specific areas" 2 []
      ["Choose specialization", "Achieve advanced competency"]
      ["Industry Certifications"]
      ["Research trending specializations in " ++ career_name, "Select a niche"]
      spec_children
  -- 5. Career Launch
  let job_children :=
    [ make_step "Professional Branding"
        "Create compelling professional presence" 1 []
        ["Update resume", "Optimize professional profile", "Build portfolio"]
        ["LinkedIn", "Resume Builder"]
        ["Tailor resume for " ++ career_name,
         "Highlight key skills: " ++ String.intercalate ", " (skills_to_learn.take 3)] [],
      make_step "Job Search Strategy" "Execute systematic job search" 1 []
        ["Apply to positions", "Network", "Interview prep"]
        ["Job Boards", "Networking Events"]
        ["Identify top companies for " ++ career_name, "Prepare for interviews"] [] ]
  let job := make_step "Career Launch" "Land your first role in the field"
      job_children.length []
      ["Complete branding", "Secure job offer"]
      ["Job Search Platforms"]
      ["Develop job search strategy", "Practice interview questions"]
      job_children
  (⟨foundations, core, project, specialization, job⟩, rng4)

/-- The in-place `duration_months += 1` of the focus tailoring. -/
def bumpDuration (s : RoadmapStep) : RoadmapStep :=
  { s with duration_months := s.duration_months + 1 }

/-- Translation of `generate_steps_for_career(career, profile_skills, focus, beginner=True)`:
the five phases followed by the `if/elif` focus tailoring.  Returns the
steps and the advanced draw counter. -/
def generate_steps_for_career (sampler : Nat → List String → Nat → List String)
    (career : Career) (profile_skills : List String) (focus : String)
    (beginner : Bool) (rng : Nat) : List RoadmapStep × Nat :=
  let pr := buildPhases sampler career profile_skills beginner rng
  let ph := pr.1
  if focus = "Depth" then
    ([ph.foundations, bumpDuration ph.core, ph.project, ph.specialization, ph.job], pr.2)
  else if focus = "Fast-Entry" then
    ([ph.foundations, ph.core, bumpDuration ph.project, ph.specialization, ph.job], pr.2)
  else if focus = "Transition" then
    ([ph.foundations, ph.core, ph.project, ph.specialization, bumpDuration ph.job], pr.2)
  else
    ([ph.foundations, ph.core, ph.project, ph.specialization, ph.job], pr.2)

/-- Translation of `top_career.get('career') or top_career.get('label', 'Career')`:
occupation records carry a `career` key but no `label` key, so a falsy
(empty) name falls through to the literal `'Career'`. -/
def pathTitle (c : Career) : String :=
  if c.career = "" then "Career" else c.career

/-- Translation of `generate_distinct_roadmaps(profile, top_career)`: one
`generate_steps_for_career` call per focus in the fixed order
`['Depth', 'Fast-Entry', 'Transition']`, the random draw counter advancing
across the three calls. -/
def generate_distinct_roadmaps (sampler : Nat → List String → Nat → List String)
    (profile_skills : List String) (top_career : Career) (rng : Nat) :
    List Roadmap × Nat :=
  let s1 := generate_steps_for_career sampler top_career profile_skills "Depth" true rng
  let s2 := generate_steps_for_career sampler top_career profile_skills "Fast-Entry" true s1.2
  let s3 := generate_steps_for_career sampler top_career profile_skills "Transition" true s2.2
  ([⟨pathTitle top_career, "Depth", 0.8, s1.1⟩,
    ⟨pathTitle top_career, "Fast-Entry", 0.8, s2.1⟩,
    ⟨pathTitle top_career, "Transition", 0.8, s3.1⟩], s3.2)

/-! ### Quiz heuristic and top-level handler (`generator.py`) -/

/-- The `type_to_skills` table of `_derive_skills_from_quiz`. -/
def typeToSkills (t : String) : List String :=
  if t = "A" then ["python", "analysis", "sql", "data visualization"]
  else if t = "B" then ["communication", "teaching", "empathy", "presentation"]
  else if t = "C" then ["design", "creativity", "ui/ux", "writing"]
  else if t = "D" then ["project management", "organization", "planning", "leadership"]
  else []

/-- Translation of `tallied[sk] = tallied.get(sk, 0) + 1` on an insertion-ordered dict. -/
def tallyAdd (t : List (String × Nat)) (sk : String) : List (String × Nat) :=
  if t.any (fun p => p.1 = sk) then
    t.map (fun p => if p.1 = sk then (p.1, p.2 + 1) else p)
  else t ++ [(sk, 1)]

/-- Translation of `_derive_skills_from_quiz(answers)`: tally the skills of each answer
type, rank by count with Python's stable descending sort (ties keep
first-seen order) and keep the top 8.  An answer is represented by the
value of its `type` field (`ans.get('type') or ''`). -/
def deriveSkillsFromQuiz (answers : List String) : List String :=
  let tallied := answers.foldl
    (fun t ans => (typeToSkills (strUpper ans)).foldl tallyAdd t) []
  let ranked := sortDesc (tallied.map (fun p => (p.1, (p.2 : ℚ))))
  (ranked.take 8).map Prod.fst

/-- The request payload consumed by `generate_roadmaps_for_user`. -/
structure UserInput where
  skills : List String
  answers : List String
  education : String
  summary : String

/-- The response shape of `generate_roadmaps_for_user` (the `input` echo
is omitted; `roadmaps` keeps its structured form — `_serialize_nested_steps`
only reshapes dataclasses into dicts). -/
structure UserOutput where
  derived_skills : List String
  chosen_career : String
  roadmaps : List Roadmap
  images : List String

/-- Whether an `Except` result is a success. -/
def exceptIsOk {ε α : Type} : Except ε α → Bool
  | Except.ok _ => true
  | Except.error _ => false

/-- Translation of `generate_roadmaps_for_user(user_input)` from `generator.py`.
Collaborators: the semantic query and fuzzy scorer (resolution), the task
sampler (synthesis), the diagram renderer `_plot_roadmaps` and the two
`json.dump` persistence calls.  The `build_skill_index` attempt is inside
`try/except: pass`, so a build failure has no observable effect here and
is not a parameter.  The renderer and the two file writes are *not*
guarded in the source: an exception there propagates to the caller, which
is modelled by returning `Except.error`.  The `scored[0][0] if scored else
CAREER_DATASET[0]` selection raises `IndexError` on an empty dataset. -/
def generate_roadmaps_for_user (query : String → Option (String × ℚ))
    (scorer : String → String → ℚ)
    (sampler : Nat → List String → Nat → List String)
    (plot : List Roadmap → Except String (List String))
    (save1 save2 : Except String Unit)
    (corpus : List Career) (vocab : List String)
    (u : UserInput) (rng : Nat) : Except String UserOutput :=
  let derived := deriveSkillsFromQuiz u.answers
  let skills := normalize_skills query vocab scorer (u.skills ++ derived)
  match selectTop corpus skills u.summary with
  | none => Except.error "IndexError: list index out of range"
  | some top =>
    let rms := (generate_distinct_roadmaps sampler skills top rng).1
    match plot rms with
    | Except.error e => Except.error e
    | Except.ok images =>
      match save1 with
      | Except.error e => Except.error e
      | Except.ok _ =>
        match save2 with
        | Except.error e => Except.error e
        | Except.ok _ => Except.ok ⟨skills, top.career, rms, images⟩

/-! ### Concrete fixtures for witnesses and counterexamples -/

/-- A semantic query collaborator that always raises (missing index). -/
def queryRaises : String → Option (String × ℚ) := fun _ => none

/-- A degenerate similarity scorer (constant 0); `token_sort_ratio` is
abstract in this development, any concrete instance will do for witnesses. -/
def scorerZero : String → String → ℚ := fun _ _ => 0

/-- A sampler that returns the first `k` population elements — a
legitimate outcome of `random.sample(population, k)`. -/
def samplerTake : Nat → List String → Nat → List String :=
  fun _ pop k => pop.take k

/-- A sampler whose draws 0–3 (the first `generate_steps_for_career`
call) return the first `k` tasks in order, while later draws return them
in reversed order — both outcomes `random.sample` can produce. -/
def samplerShifty : Nat → List String → Nat → List String :=
  fun i pop k => if i < 4 then pop.take k else pop.reverse.take k

/-- An occupation whose skill list contains the same token twice after
lower-casing (`careers.json` can hold such entries: skills are merged as
a case-sensitive set and lower-cased afterwards). -/
def occDupSkills : Career :=
  ⟨"Data Analyst", ["Python", "python"], [], "", []⟩

/-- Claim-side score of C2: the denominator is the size of the skill
vocabulary *as a set* of lower-cased tokens. -/
def scoreOccSetDenom (skills : List String) (summary : String) (c : Career) : ℚ :=
  let cskills := c.skills.map strLower
  let overlap : ℕ := (skills.toFinset ∩ cskills.toFinset).card
  let kw_bonus : ℚ :=
    if (cskills.take 5).any (fun k => strContainsSub (strLower summary) k)
    then 0.2 else 0
  (overlap : ℚ) / ((max 1 cskills.toFinset.card : ℕ) : ℚ) + kw_bonus

/-- An occupation with two tasks, used to exhibit diverging samples. -/
def occTwoTasks : Career :=
  ⟨"Data Analyst", [], [], "", ["task a", "task b"]⟩

/-- The three roadmaps of one synthesis pass over `occTwoTasks` with the
`samplerShifty` draws. -/
def shiftyRoadmaps : List Roadmap :=
  (generate_distinct_roadmaps samplerShifty [] occTwoTasks 0).1

/-- The task list of child `k` of step `j` of roadmap `i`. -/
def tasksAt (rms : List Roadmap) (i j k : Nat) : Option (List String) :=
  (rms.get? i).bind (fun r =>
    (r.steps.get? j).bind (fun s =>
      (s.children.get? k).map RoadmapStep.tasks))

/-- The fallback `CAREER_DATASET` "Data Analyst" entry (apostrophe-free
fields only; education is irrelevant to every claim). -/
def occDA : Career :=
  ⟨"Data Analyst", ["python", "sql", "data visualization", "pandas"], [],
   "Analyze data.", []⟩

/-- Occupation `A`: same vocabulary as `occB`, hence the same score. -/
def occA : Career := ⟨"A", ["python"], [], "", []⟩

/-- Occupation `B`: same vocabulary as `occA`, hence the same score. -/
def occB : Career := ⟨"B", ["python"], [], "", []⟩

/-- A rendering collaborator that raises. -/
def plotFails : List Roadmap → Except String (List String) :=
  fun _ => Except.error "plot failed"

/-- A rendering collaborator that succeeds. -/
def plotOkEmpty : List Roadmap → Except String (List String) :=
  fun _ => Except.ok []

/-- A request with one explicit skill and no quiz answers. -/
def reqInput : UserInput := ⟨["python"], [], "", ""⟩

/-- A semantic query whose best neighbour scores exactly 0.6 — at the
threshold — while naming a token different from the fuzzy choice. -/
def queryPointSix : String → Option (String × ℚ) :=
  fun _ => some ("semantic-choice", 0.6)

/-- A one-token vocabulary whose fuzzy winner differs from the semantic
neighbour of `queryPointSix`. -/
def vocabFuzzy : List String := ["fuzzy-choice"]

/-! ### Helper lemmas -/

lemma insertDesc_head {α : Type} (x : α × ℚ) (l : List (α × ℚ)) :
    (insertDesc x l).head? =
      some (match l.head? with
            | none => x
            | some y => if x.2 ≥ y.2 then x else y) := by
  cases l with
  | nil => simp [insertDesc]
  | cons y ys =>
    by_cases h : x.2 ≥ y.2 <;> simp [insertDesc, h]

lemma sortDesc_head_eq_firstMax {α : Type} (l : List (α × ℚ)) :
    (sortDesc l).head? = firstMax l := by
  induction l with
  | nil => simp [sortDesc, firstMax]
  | cons x xs ih =>
    rw [sortDesc, insertDesc_head, ih, firstMax]
    cases h : firstMax xs with
    | none => simp
    | some m =>
      by_cases hge : x.2 ≥ m.2
      · have : ¬ m.2 > x.2 := not_lt.mpr hge
        simp [hge, this]
      · have : m.2 > x.2 := lt_of_not_ge hge
        simp [hge, this]

lemma firstMax_eq_none_iff {α : Type} (l : List (α × ℚ)) :
    firstMax l = none ↔ l = [] := by
  cases l with
  | nil => simp [firstMax]
  | cons x xs =>
    rw [firstMax]
    cases firstMax xs with
    | none => simp
    | some m =>
      by_cases h : m.2 > x.2 <;> simp [h]

lemma firstMax_mem {α : Type} {l : List (α × ℚ)} {m : α × ℚ}
    (h : firstMax l = some m) : m ∈ l := by
  induction l with
  | nil => simp [firstMax] at h
  | cons x xs ih =>
    cases hx : firstMax xs with
    | none =>
      simp [firstMax, hx] at h
      simp [h]
    | some m' =>
      by_cases hgt : m'.2 > x.2
      · simp [firstMax, hx, hgt] at h
        exact List.mem_cons_of_mem _ (ih (hx.trans (by rw [h])))
      · simp [firstMax, hx, hgt] at h
        simp [h]

lemma firstMax_cons_of_le {α : Type} (x : α × ℚ) (post : List (α × ℚ))
    (h : ∀ y ∈ post, y.2 ≤ x.2) : firstMax (x :: post) = some x := by
  rw [firstMax]
  cases hx : firstMax post with
  | none => rfl
  | some m =>
    have hm : m ∈ post := firstMax_mem hx
    have : ¬ m.2 > x.2 := not_lt.mpr (h m hm)
    simp [this]

lemma firstMax_append_first {α : Type} (pre : List (α × ℚ)) (x : α × ℚ)
    (post : List (α × ℚ))
    (hpre : ∀ y ∈ pre, y.2 < x.2) (hpost : ∀ y ∈ post, y.2 ≤ x.2) :
    firstMax (pre ++ x :: post) = some x := by
  induction pre with
  | nil => simpa using firstMax_cons_of_le x post hpost
  | cons y pre' ih =>
    have hx : firstMax (pre' ++ x :: post) = some x :=
      ih (fun z hz => hpre z (List.mem_cons_of_mem _ hz))
    rw [List.cons_append, firstMax, hx]
    have : x.2 > y.2 := hpre y (List.mem_cons_self _ _)
    simp [this]

lemma selectTop_eq_spec (corpus : List Career) (skills : List String)
    (summary : String) :
    selectTop corpus skills summary = selectBestSpec corpus skills summary := by
  simp only [selectTop, selectBestSpec]
  rw [sortDesc_head_eq_firstMax]
  cases h : firstMax (corpus.map (fun c => (c, scoreOcc skills summary c))) with
  | some m => simp
  | none =>
    have : corpus.map (fun c => (c, scoreOcc skills summary c)) = [] :=
      (firstMax_eq_none_iff _).mp h
    have hc : corpus = [] := List.map_eq_nil_iff.mp this
    simp [hc]

lemma firstOccurrenceDedup_subset {y : String} :
    ∀ {l : List String}, y ∈ firstOccurrenceDedup l → y ∈ l := by
  intro l
  induction l using firstOccurrenceDedup.induct with
  | case1 => simp [firstOccurrenceDedup]
  | case2 x xs ih =>
    rw [firstOccurrenceDedup]
    intro hy
    rcases List.mem_cons.mp hy with h | h
    · simp [h]
    · exact List.mem_cons_of_mem _ (List.mem_of_mem_filter (ih h))

lemma firstOccurrenceDedup_nodup :
    ∀ (l : List String), (firstOccurrenceDedup l).Nodup := by
  intro l
  induction l using firstOccurrenceDedup.induct with
  | case1 => simp [firstOccurrenceDedup]
  | case2 x xs ih =>
    rw [firstOccurrenceDedup]
    refine List.nodup_cons.mpr ⟨?_, ih⟩
    intro hx
    have := List.of_mem_filter (firstOccurrenceDedup_subset hx)
    simp at this

lemma mem_firstOccurrenceDedup_of_mem {y : String} :
    ∀ {l : List String}, y ∈ l → y ∈ firstOccurrenceDedup l := by
  intro l
  induction l using firstOccurrenceDedup.induct with
  | case1 => simp
  | case2 x xs ih =>
    intro hy
    rw [firstOccurrenceDedup]
    rcases List.mem_cons.mp hy with h | h
    · simp [h]
    · by_cases hx : y = x
      · simp [hx]
      · exact List.mem_cons_of_mem _ (ih (List.mem_filter.mpr ⟨h, by simp [hx]⟩))

lemma dedupeAux_eq (l : List String) :
    ∀ (seen : List String),
      dedupeAux seen l = seen ++ firstOccurrenceDedup (l.filter (fun y => y ∉ seen)) := by
  induction l with
  | nil => intro seen; simp [dedupeAux, firstOccurrenceDedup]
  | cons x xs ih =>
    intro seen
    by_cases hx : x ∈ seen
    · rw [dedupeAux, if_pos hx, ih seen]
      have : (x :: xs).filter (fun y => y ∉ seen) = xs.filter (fun y => y ∉ seen) := by
        rw [List.filter_cons]
        simp [hx]
      rw [this]
    · rw [dedupeAux, if_neg hx, ih (seen ++ [x])]
      have h1 : (x :: xs).filter (fun y => y ∉ seen) =
          x :: xs.filter (fun y => y ∉ seen) := by
        rw [List.filter_cons]
        simp [hx]
      have h2 : xs.filter (fun y => y ∉ seen ++ [x]) =
          (xs.filter (fun y => y ∉ seen)).filter (fun y => y ≠ x) := by
        rw [List.filter_filter]
        apply List.filter_congr
        intro a _
        by_cases ha : a ∈ seen <;> by_cases hax : a = x <;>
          simp [ha, hax, List.mem_append]
      rw [h1, firstOccurrenceDedup, ← h2, List.append_assoc, List.singleton_append]

lemma normalize_skills_eq_fOD (query : String → Option (String × ℚ))
    (vocab : List String) (scorer : String → String → ℚ)
    (raw_skills : List String) :
    normalize_skills query vocab scorer raw_skills =
      firstOccurrenceDedup (raw_skills.map (resolveOne query vocab scorer)) := by
  rw [normalize_skills, dedupeAux_eq]
  have : (raw_skills.map (resolveOne query vocab scorer)).filter
      (fun y => y ∉ ([] : List String)) =
      raw_skills.map (resolveOne query vocab scorer) := by
    apply List.filter_eq_self.mpr
    intro a _
    simp
  rw [this, List.nil_append]

/-! ### Claim theorems -/

/-- Claim C5: for every raw skill string, the resolver accepts the
semantic nearest neighbour as the canonical token exactly when its
similarity is strictly greater than 0.6; at similarity exactly 0.6 or
below the resolved token comes from the fuzzy string-matching path. -/
theorem claim_C5_semantic_threshold
    (query : String → Option (String × ℚ)) (vocab : List String)
    (scorer : String → String → ℚ) (raw nn : String) (d : ℚ)
    (hq : query (strTrim raw) = some (nn, d)) :
    ((0.6 : ℚ) < d → resolveOne query vocab scorer raw = nn)
    ∧ (d ≤ (0.6 : ℚ) →
        resolveOne query vocab scorer raw =
          fuzzyFallback scorer vocab (strTrim raw)) := by
  constructor
  · intro hd
    simp [resolveOne, hq, hd]
  · intro hd
    have hnd : ¬ ((0.6 : ℚ) < d) := not_lt.mpr hd
    simp [resolveOne, hq, hnd]

/-- Witness for C5, built so that the two paths disagree: the semantic
neighbour scores exactly 0.6 and names `"semantic-choice"`, yet the
resolver returns the fuzzy winner `"fuzzy-choice"`. -/
theorem claim_C5_witness :
    resolveOne queryPointSix vocabFuzzy scorerZero "skill" = "fuzzy-choice"
    ∧ "fuzzy-choice" ≠ "semantic-choice" := by
  have h := (claim_C5_semantic_threshold queryPointSix vocabFuzzy scorerZero
    "skill" "semantic-choice" (0.6 : ℚ) rfl).2 (le_refl _)
  exact ⟨by rw [h]; rfl, by decide⟩

/-- Claim C6: a failure in resolving any single skill never aborts the
batch — a failing semantic lookup falls back to fuzzy matching, an empty
vocabulary degrades to the trimmed lower-cased raw form, and every input
skill contributes its resolved token to the output. -/
theorem claim_C6_resolution_degradation
    (query : String → Option (String × ℚ)) (vocab : List String)
    (scorer : String → String → ℚ) (raws : List String) (raw : String) :
    (raw ∈ raws →
      resolveOne query vocab scorer raw ∈ normalize_skills query vocab scorer raws)
    ∧ (query (strTrim raw) = none →
        resolveOne query vocab scorer raw =
          fuzzyFallback scorer vocab (strTrim raw))
    ∧ (query (strTrim raw) = none → vocab = [] →
        resolveOne query vocab scorer raw = strLower (strTrim raw)) := by
  refine ⟨?_, ?_, ?_⟩
  · intro hmem
    rw [normalize_skills_eq_fOD]
    exact mem_firstOccurrenceDedup_of_mem
      (List.mem_map_of_mem (resolveOne query vocab scorer) hmem)
  · intro hq
    simp [resolveOne, hq]
  · intro hq hv
    simp [resolveOne, hq, hv, fuzzyFallback, extractOneBy, firstMax]

/-- Witness for C6: with a raising semantic collaborator and an empty
vocabulary, the skill `" Python "` degrades to `"python"` and still
appears in the batch output. -/
theorem claim_C6_witness :
    resolveOne queryRaises [] scorerZero " Python "
        ∈ normalize_skills queryRaises [] scorerZero [" Python "]
    ∧ resolveOne queryRaises [] scorerZero " Python "
        = fuzzyFallback scorerZero [] (strTrim " Python ")
    ∧ resolveOne queryRaises [] scorerZero " Python "
        = strLower (strTrim " Python ") := by
  have h := claim_C6_resolution_degradation queryRaises [] scorerZero
    [" Python "] " Python "
  exact ⟨h.1 (by simp), h.2.1 rfl, h.2.2 rfl rfl⟩

/-- Claim C9: the resolver's output never contains two equal tokens and
keeps canonical tokens in order of first appearance; in particular
`["Python", "SQL", "python"]` resolves (with an unavailable index and an
empty vocabulary) to `["python", "sql"]`. -/
theorem claim_C9_dedup_invariant
    (query : String → Option (String × ℚ)) (vocab : List String)
    (scorer : String → String → ℚ) (raws : List String) :
    (normalize_skills query vocab scorer raws).Nodup
    ∧ normalize_skills query vocab scorer raws =
        firstOccurrenceDedup (raws.map (resolveOne query vocab scorer))
    ∧ normalize_skills queryRaises [] scorerZero ["Python", "SQL", "python"]
        = ["python", "sql"] := by
  refine ⟨?_, normalize_skills_eq_fOD _ _ _ _, by rfl⟩
  rw [normalize_skills_eq_fOD]
  exact firstOccurrenceDedup_nodup _

/-- Claim C3: with an empty occupation corpus the matcher never returns an
occupation — the selection expression raises (modelled by `none`), and it
does so exactly in the empty-corpus case. -/
theorem claim_C3_empty_corpus_error (corpus : List Career)
    (skills : List String) (summary : String) :
    selectTop corpus skills summary = none ↔ corpus = [] := by
  rw [selectTop_eq_spec]
  constructor
  · intro h
    unfold selectBestSpec at h
    cases hf : firstMax (corpus.map (fun c => (c, scoreOcc skills summary c))) with
    | some m => rw [hf] at h; simp at h
    | none => exact List.map_eq_nil_iff.mp ((firstMax_eq_none_iff _).mp hf)
  · intro h
    subst h
    rfl

/-- Claim C8: the matcher picks the occupation with the strictly highest
score, and on ties deterministically the one first in corpus order: the
selection equals the specification-side first-maximum, and any occupation
preceded only by strictly lower scores and undominated overall is the one
selected. -/
theorem claim_C8_tie_break (corpus : List Career) (skills : List String)
    (summary : String) :
    selectTop corpus skills summary = selectBestSpec corpus skills summary
    ∧ ∀ pre x post, corpus = pre ++ x :: post →
        (∀ y ∈ pre, scoreOcc skills summary y < scoreOcc skills summary x) →
        (∀ y ∈ corpus, scoreOcc skills summary y ≤ scoreOcc skills summary x) →
        selectTop corpus skills summary = some x := by
  refine ⟨selectTop_eq_spec _ _ _, ?_⟩
  intro pre x post hcorp hpre hall
  subst hcorp
  rw [selectTop_eq_spec]
  unfold selectBestSpec
  have hfm : firstMax ((pre ++ x :: post).map
      (fun c => (c, scoreOcc skills summary c)))
      = some (x, scoreOcc skills summary x) := by
    rw [List.map_append, List.map_cons]
    apply firstMax_append_first
    · intro y hy
      rcases List.mem_map.mp hy with ⟨z, hz, rfl⟩
      exact hpre z hz
    · intro y hy
      rcases List.mem_map.mp hy with ⟨z, hz, rfl⟩
      exact hall z (List.mem_append_right _ (List.mem_cons_of_mem _ hz))
  rw [hfm]
  rfl

/-- Witness for C8: occupations `A` and `B` score identically (both `1`)
and the matcher returns `A`, the first in corpus order. -/
theorem claim_C8_witness : selectTop [occA, occB] ["python"] "" = some occA := by
  have hA : scoreOcc ["python"] "" occA = 1 := by
    have hc : (["python"].toFinset ∩ (occA.skills.map strLower).toFinset).card = 1 := by
      rfl
    simp only [scoreOcc, hc]
    norm_num [occA, strContainsSub, strLower]
  have hB : scoreOcc ["python"] "" occB = 1 := by
    have hc : (["python"].toFinset ∩ (occB.skills.map strLower).toFinset).card = 1 := by
      rfl
    simp only [scoreOcc, hc]
    norm_num [occB, strContainsSub, strLower]
  refine (claim_C8_tie_break [occA, occB] ["python"] "").2 [] occA [occB] rfl
    (fun y hy => absurd hy (List.not_mem_nil y)) ?_
  intro y hy
  rcases List.mem_cons.mp hy with h | h
  · rw [h]
  · have : y = occB := by simpa using h
    rw [this, hA, hB]

/-- Claim C2 (amended): the matcher's score is the set-overlap of resolved
skills with the lower-cased occupation skill list, divided by
`max 1 N` where `N` is the *length of the occupation's skill list*
(duplicates counted — not the size of its vocabulary as a set), plus the
0.2 substring bonus over the first 5 entries of that list. -/
theorem claim_C2_matcher_score_amended (skills : List String)
    (summary : String) (c : Career) (h : skills.Nodup) :
    scoreOcc skills summary c =
      ((skills.filter (fun s => s ∈ c.skills.map strLower)).length : ℚ)
        / ((max 1 c.skills.length : ℕ) : ℚ)
      + (if ((c.skills.map strLower).take 5).any
            (fun k => strContainsSub (strLower summary) k)
         then (0.2 : ℚ) else 0) := by
  have h1 : skills.toFinset ∩ (c.skills.map strLower).toFinset
      = (skills.filter (fun s => s ∈ c.skills.map strLower)).toFinset := by
    ext a
    simp [List.mem_filter, and_comm]
  have hcard : (skills.toFinset ∩ (c.skills.map strLower).toFinset).card
      = (skills.filter (fun s => s ∈ c.skills.map strLower)).length := by
    rw [h1, List.toFinset_card_of_nodup (h.filter _)]
  simp only [scoreOcc, hcard, List.length_map]

/-- Witness for C2 (amended), at the "Data Analyst" occupation and the
resolved skill list `["python"]`: the score evaluates to `1/4`. -/
theorem claim_C2_witness :
    scoreOcc ["python"] "" occDA =
      ((["python"].filter (fun s => s ∈ occDA.skills.map strLower)).length : ℚ)
        / ((max 1 occDA.skills.length : ℕ) : ℚ)
      + (if ((occDA.skills.map strLower).take 5).any
            (fun k => strContainsSub (strLower "") k)
         then (0.2 : ℚ) else 0)
    ∧ scoreOcc ["python"] "" occDA = 1/4 := by
  have h := claim_C2_matcher_score_amended ["python"] "" occDA (by simp)
  refine ⟨h, ?_⟩
  rw [h]
  have h2 : ["python"].filter (fun s => s ∈ occDA.skills.map strLower)
      = ["python"] := by rfl
  have h3 : ((occDA.skills.map strLower).take 5).any
      (fun k => strContainsSub (strLower "") k) = false := by rfl
  rw [h2, h3]
  norm_num [occDA]

/-- Counterexample for C2 as stated: on an occupation whose skill list
holds the same token twice after lower-casing, the matcher divides by the
list length (2), not the vocabulary-set size (1): the code scores `1/2`
where the claimed formula gives `1`. -/
theorem claim_C2_counterexample :
    scoreOcc ["python"] "" occDupSkills = 1/2
    ∧ scoreOccSetDenom ["python"] "" occDupSkills = 1
    ∧ scoreOcc ["python"] "" occDupSkills
        ≠ scoreOccSetDenom ["python"] "" occDupSkills := by
  have hc : (["python"].toFinset ∩ (occDupSkills.skills.map strLower).toFinset).card
      = 1 := by rfl
  have h1 : scoreOcc ["python"] "" occDupSkills = 1/2 := by
    simp only [scoreOcc, hc]
    norm_num [occDupSkills, strContainsSub, strLower]
  have h2 : scoreOccSetDenom ["python"] "" occDupSkills = 1 := by
    have hd : ((occDupSkills.skills.map strLower).toFinset).card = 1 := by rfl
    simp only [scoreOccSetDenom, hc, hd]
    norm_num [occDupSkills, strContainsSub, strLower]
  exact ⟨h1, h2, by rw [h1, h2]; norm_num⟩

/-- The core phase's baseline duration is `max 2 (number of sub-steps)`,
the sub-step count being the number of skills chosen to teach. -/
lemma buildPhases_core_duration (s : Nat → List String → Nat → List String)
    (c : Career) (sk : List String) (b : Bool) (r : Nat) :
    ((buildPhases s c sk b r).1).core.duration_months
      = max 2 (skillsToLearn c sk).length := by
  simp only [buildPhases, make_step, List.length_map, List.enum_length]

/-- Claim C7: synthesis always returns exactly 5 top-level steps in the
fixed order Foundations, Core Skills Development, Practical Application,
Specialization, Career Launch, for every occupation, skill list, focus,
beginner flag and sampler; an occupation with empty skills and tasks
degrades to empty sub-step lists and synthetic placeholder tasks instead
of failing. -/
theorem claim_C7_synthesis_completeness
    (sampler : Nat → List String → Nat → List String) (career : Career)
    (skills : List String) (focus : String) (beginner : Bool) (rng : Nat) :
    ((generate_steps_for_career sampler career skills focus beginner rng).1).map
        RoadmapStep.title
      = ["Foundations", "Core Skills Development", "Practical Application",
         "Specialization", "Career Launch"]
    ∧ ((generate_steps_for_career sampler career skills focus beginner rng).1).length = 5
    ∧ (∀ name edu desc,
        (((generate_steps_for_career sampler ⟨name, [], edu, desc, []⟩ skills
            focus true rng).1).get? 1).map RoadmapStep.children = some []
        ∧ (((generate_steps_for_career sampler ⟨name, [], edu, desc, []⟩ skills
            focus true rng).1).get? 0).map (fun s => s.children.map RoadmapStep.tasks)
          = some [["Study fundamental concept 1", "Study fundamental concept 2",
                   "Study fundamental concept 3", "Study fundamental concept 4",
                   "Study fundamental concept 5"],
                  ["Research standard tools for " ++ name,
                   "Install primary software tools",
                   "Create account on professional networks"]]) := by
  refine ⟨?_, ?_, ?_⟩
  · simp only [generate_steps_for_career]
    split_ifs <;> rfl
  · simp only [generate_steps_for_career]
    split_ifs <;> rfl
  · intro name edu desc
    constructor
    · simp only [generate_steps_for_career]
      split_ifs <;> rfl
    · simp only [generate_steps_for_career]
      split_ifs <;> rfl

/-- Claim C10: a focus value outside {Depth, Fast-Entry, Transition}
performs no duration adjustment: the steps equal the untailored phases
with baseline durations `[1, max 2 (number of core sub-steps), 2, 2, 2]`,
and each recognized focus differs from that baseline only by adding one
month to its designated phase. -/
theorem claim_C10_unrecognized_focus
    (sampler : Nat → List String → Nat → List String) (career : Career)
    (skills : List String) (rng : Nat) (focus : String)
    (h1 : focus ≠ "Depth") (h2 : focus ≠ "Fast-Entry")
    (h3 : focus ≠ "Transition") :
    (generate_steps_for_career sampler career skills focus true rng).1
      = [((buildPhases sampler career skills true rng).1).foundations,
         ((buildPhases sampler career skills true rng).1).core,
         ((buildPhases sampler career skills true rng).1).project,
         ((buildPhases sampler career skills true rng).1).specialization,
         ((buildPhases sampler career skills true rng).1).job]
    ∧ ((generate_steps_for_career sampler career skills focus true rng).1).map
        RoadmapStep.duration_months
      = [1, max 2 (skillsToLearn career skills).length, 2, 2, 2]
    ∧ (generate_steps_for_career sampler career skills "Depth" true rng).1
      = [((buildPhases sampler career skills true rng).1).foundations,
         bumpDuration ((buildPhases sampler career skills true rng).1).core,
         ((buildPhases sampler career skills true rng).1).project,
         ((buildPhases sampler career skills true rng).1).specialization,
         ((buildPhases sampler career skills true rng).1).job]
    ∧ (generate_steps_for_career sampler career skills "Fast-Entry" true rng).1
      = [((buildPhases sampler career skills true rng).1).foundations,
         ((buildPhases sampler career skills true rng).1).core,
         bumpDuration ((buildPhases sampler career skills true rng).1).project,
         ((buildPhases sampler career skills true rng).1).specialization,
         ((buildPhases sampler career skills true rng).1).job]
    ∧ (generate_steps_for_career sampler career skills "Transition" true rng).1
      = [((buildPhases sampler career skills true rng).1).foundations,
         ((buildPhases sampler career skills true rng).1).core,
         ((buildPhases sampler career skills true rng).1).project,
         ((buildPhases sampler career skills true rng).1).specialization,
         bumpDuration ((buildPhases sampler career skills true rng).1).job] := by
  refine ⟨?_, ?_, rfl, rfl, rfl⟩
  · simp only [generate_steps_for_career, if_neg h1, if_neg h2, if_neg h3]
  · simp only [generate_steps_for_career, if_neg h1, if_neg h2, if_neg h3]
    simp only [List.map_cons, List.map_nil]
    rw [buildPhases_core_duration]
    rfl

/-- Witness for C10: the unrecognized focus `"Breadth"` leaves every
phase at its baseline duration on a concrete occupation. -/
theorem claim_C10_witness :
    ((generate_steps_for_career samplerTake occTwoTasks [] "Breadth" true 0).1).map
        RoadmapStep.duration_months = [1, 2, 2, 2, 2]
    ∧ (generate_steps_for_career samplerTake occTwoTasks [] "Breadth" true 0).1
      = [((buildPhases samplerTake occTwoTasks [] true 0).1).foundations,
         ((buildPhases samplerTake occTwoTasks [] true 0).1).core,
         ((buildPhases samplerTake occTwoTasks [] true 0).1).project,
         ((buildPhases samplerTake occTwoTasks [] true 0).1).specialization,
         ((buildPhases samplerTake occTwoTasks [] true 0).1).job] := by
  have h := claim_C10_unrecognized_focus samplerTake occTwoTasks [] 0 "Breadth"
    (by decide) (by decide) (by decide)
  refine ⟨?_, h.1⟩
  rw [h.2.1]
  rfl

/-- Claim C1 (amended): whenever the three synthesis calls of one pass
draw identical task samples for identical requests — the sampler ignores
the draw index, which in particular covers every occupation with an empty
task list — the three roadmaps share all phases except that Depth adds one
month to Core Skills Development, Fast-Entry to Practical Application and
Transition to Career Launch, with common path title and confidence 0.8. -/
theorem claim_C1_focus_isolation_amended
    (f : List String → Nat → List String) (skills : List String)
    (career : Career) (rng : Nat) :
    (let ph := (buildPhases (fun _ pop k => f pop k) career skills true rng).1
     (generate_distinct_roadmaps (fun _ pop k => f pop k) skills career rng).1
      = [⟨pathTitle career, "Depth", 0.8,
          [ph.foundations, bumpDuration ph.core, ph.project,
           ph.specialization, ph.job]⟩,
         ⟨pathTitle career, "Fast-Entry", 0.8,
          [ph.foundations, ph.core, bumpDuration ph.project,
           ph.specialization, ph.job]⟩,
         ⟨pathTitle career, "Transition", 0.8,
          [ph.foundations, ph.core, ph.project,
           ph.specialization, bumpDuration ph.job]⟩]) := by
  rfl

/-- Counterexample for C1 as stated: with an occupation that has two
tasks, one pass can draw different samples for the Depth and Fast-Entry
calls (both draws are legitimate `random.sample` outcomes), so the two
roadmaps differ in the Foundations sub-step's task list — a non-duration
field — and are not structurally identical. -/
theorem claim_C1_counterexample :
    tasksAt shiftyRoadmaps 0 0 0 = some ["task a", "task b"]
    ∧ tasksAt shiftyRoadmaps 1 0 0 = some ["task b", "task a"]
    ∧ tasksAt shiftyRoadmaps 0 0 0 ≠ tasksAt shiftyRoadmaps 1 0 0 := by
  have h1 : tasksAt shiftyRoadmaps 0 0 0 = some ["task a", "task b"] := rfl
  have h2 : tasksAt shiftyRoadmaps 1 0 0 = some ["task b", "task a"] := rfl
  refine ⟨h1, h2, ?_⟩
  rw [h1, h2]
  decide

/-- Claim C4 (code bug): the renderer is not guarded in
`generate_roadmaps_for_user`, so a plotting failure after a successful
roadmap computation propagates and the caller never receives the computed
output — on the very same input that succeeds when the renderer works. -/
theorem claim_C4_render_failure_discards_result :
    generate_roadmaps_for_user queryRaises scorerZero samplerTake plotFails
        (Except.ok ()) (Except.ok ()) [occDA] [] reqInput 0
      = Except.error "plot failed"
    ∧ exceptIsOk (generate_roadmaps_for_user queryRaises scorerZero samplerTake
        plotOkEmpty (Except.ok ()) (Except.ok ()) [occDA] [] reqInput 0)
      = true :=
  ⟨rfl, rfl⟩

end NovaPlan
